import Mathlib

/-!
Verification development for the ogd-analytics-sync repository
(src/dags/ogd/ogd_web_analytics_etl.py and
src/dags/ogd/ogd_web_analytics_utilities.py).

Shallow embedding conventions:
  - A calendar date is an Int, counting days since 1970-01-01
    (the value of the Python date object obtained via strftime
    followed by strptime and .date()).
  - A naive datetime is an Int, counting seconds since
    1970-01-01T00:00:00 of its (unspecified) local wall clock.
  - Machine effects are explicit: the database tables are lists carried
    in a state record, HTTP fetches are oracle functions passed as
    arguments, and each reading of the wall clock is a parameter.
  - Python exceptions are modelled with Except; a function that cannot
    raise is a total Lean function.
-/

namespace Ogd

/-- The calendar date of a naive datetime given in seconds: floor
division by 86400, matching the .date() method. -/
def dateOf (t : Int) : Int := t.fdiv 86400

/-- The civil year containing a day number (days since 1970-01-01),
via the standard civil-from-days algorithm for the proleptic Gregorian
calendar. Only the year component is needed by the timezone rule. -/
def yearOfDay (z : Int) : Int :=
  let z2 := z + 719468
  let era := z2.fdiv 146097
  let doe := (z2 - era * 146097).toNat
  let yoe := (doe - doe / 1460 + doe / 36524 - doe / 146096) / 365
  let doy := doe - (365 * yoe + yoe / 4 - yoe / 100)
  let mp := (5 * doy + 2) / 153
  let m := if mp < 10 then mp + 3 else mp - 9
  (yoe : Int) + era * 400 + (if m ≤ 2 then 1 else 0)

/-- Day number (days since 1970-01-01) of a civil date, via the
standard days-from-civil algorithm for the proleptic Gregorian
calendar. -/
def daysFromCivil (y : Int) (m d : Nat) : Int :=
  let y2 := if m ≤ 2 then y - 1 else y
  let era := y2.fdiv 400
  let yoe := (y2 - era * 400).toNat
  let mp := if 3 ≤ m then m - 3 else m + 9
  let doy := (153 * mp + 2) / 5 + d - 1
  let doe := yoe * 365 + yoe / 4 - yoe / 100 + doy
  era * 146097 + (doe : Int) - 719468

/-- Day number of the last Sunday of a 31-day month (used for March
and October). Day 0, 1970-01-01, was a Thursday, so a day number d is
a Sunday exactly when (d + 4) mod 7 = 0. -/
def lastSunday (y : Int) (m : Nat) : Int :=
  let d31 := daysFromCivil y m 31
  d31 - (d31 + 4).emod 7

/-- UTC offset of the Europe/Berlin timezone, in seconds, at a given
instant (seconds since the epoch, UTC). Models the pytz timezone data
with the European Union daylight-saving rule: UTC+2 from the last
Sunday of March at 01:00 UTC until the last Sunday of October at
01:00 UTC, and UTC+1 otherwise. -/
def berlinUtcOffset (t : Int) : Int :=
  let y := yearOfDay (dateOf t)
  let dstStart := lastSunday y 3 * 86400 + 3600
  let dstEnd := lastSunday y 10 * 86400 + 3600
  if dstStart ≤ t ∧ t < dstEnd then 7200 else 3600

/-- Result of strptime on a timestamp string in either accepted format
(with or without fractional seconds, both carrying a UTC offset):
the wall-clock fields written in the string (as seconds since the
epoch of that wall clock), the fractional-second field (0 for the
format without fractions), and the UTC offset carried by the string,
in minutes. -/
structure ParsedTs where
  wallSec : Int
  usec : Nat
  offMin : Int

/-- to_timestamp (utilities lines 101-116) after parsing:
replace(microsecond=0) drops the fractional seconds;
replace(tzinfo=pytz.utc) DISCARDS the parsed UTC offset and
reinterprets the wall-clock fields as UTC; astimezone(Europe/Berlin)
then adds the Berlin offset for that instant; replace(tzinfo=None)
strips the timezone, leaving a naive local timestamp. -/
def to_timestamp (p : ParsedTs) : Int :=
  p.wallSec + berlinUtcOffset p.wallSec

/-- Rendering of an instant (epoch seconds, plus a fractional part)
at a given UTC offset in the accepted format WITH fractional seconds:
the wall-clock fields of the string are the instant shifted by the
offset. Stated from the claim, to quantify over renderings. -/
def renderWithFrac (instant : Int) (usec : Nat) (offMin : Int) : ParsedTs :=
  { wallSec := instant + offMin * 60, usec := usec, offMin := offMin }

/-- Rendering of a whole-second instant at a given UTC offset in the
accepted format WITHOUT fractional seconds. Stated from the claim. -/
def renderNoFrac (instant : Int) (offMin : Int) : ParsedTs :=
  { wallSec := instant + offMin * 60, usec := 0, offMin := offMin }

/-- The true naive Europe/Berlin local timestamp of an instant.
Stated from the claim, as the reference value renderings should
normalize to. -/
def berlinLocalOfInstant (t : Int) : Int := t + berlinUtcOffset t

/-- A Python value as delivered by the JSON API: null, a number, a
string, or a list. -/
inductive PyVal where
  | vnone
  | vint (n : Int)
  | vstr (s : String)
  | vlist (xs : List PyVal)

/-- Python subscripting v[0]: a list yields its first element
(IndexError when empty), a string yields its first character as a
one-character string (IndexError when empty), and null or a number
raises TypeError. Option.none models a raised exception. -/
def pySubscript0 : PyVal → Option PyVal
  | .vlist xs => xs.head?
  | .vstr s =>
    match s.data with
    | [] => none
    | c :: _ => some (.vstr (String.mk [c]))
  | .vnone => none
  | .vint _ => none

/-- extract_dataset (utilities lines 118-131): return list[0], and on
any exception return None. -/
def extract_dataset (v : PyVal) : PyVal :=
  (pySubscript0 v).getD .vnone

/-- A raised Python exception reaching the Airflow task. -/
inductive PyError where
  | typeError
deriving DecidableEq

/-- get_latest_timestamp (utilities lines 31-45): the SQL query
SELECT field FROM table ORDER BY field DESC LIMIT 1 returns the
greatest value of the column when the table has rows; on an empty
table fetchone() returns None and None[0] raises TypeError. The
argument is the timestamp column of the table. -/
def get_latest_timestamp (column : List Int) : Except PyError Int :=
  match column.max? with
  | some v => Except.ok v
  | none => Except.error PyError.typeError

/-- is_user_data_up_to_date (etl lines 42-48): fires when the stored
user watermark date is strictly before the shared run date minus one
day. Dates are day numbers; strptime of the strftime rendering of a
date, and timedelta(days=1) subtraction followed by .date(), are day
arithmetic. -/
def is_user_data_up_to_date (latest_user_date today : Int) : Bool :=
  if latest_user_date < today - 1 then true else false

/-- is_datasets_data_up_to_date (etl lines 56-62): fires when the
stored datasets watermark date is strictly before the shared run
date. -/
def is_datasets_data_up_to_date (latest_datasets_date today : Int) : Bool :=
  if latest_datasets_date < today then true else false

/-- A raw user-action record from the API, restricted to inputs whose
timestamp parses (the claims quantify over such inputs): the
timestamp holds the strptime result, dataset_id is the raw JSON value
(a list in the API contract), and the remaining 15 columns of the
projection list at etl line 83 arrive as JSON strings. -/
structure RawUserRow where
  timestamp : ParsedTs
  user_ip_addr : String
  user_id : String
  dataset_id : PyVal
  api_type : String
  mobile : String
  action : String
  attributes : String
  filename : String
  query_text : String
  domain_id : String
  query_string : String
  format : String
  user_agent : String
  referer : String
  geo_coordinates : String
  hostname : String

/-- A row of the ogd_analytics.user_actions table: the 17-column
schema of etl line 83, timestamp converted to a naive Berlin local
datetime, dataset_id after extract_dataset, the rest coerced to
text. -/
structure UserRow where
  timestamp : Int
  user_ip_addr : String
  user_id : String
  dataset_id : PyVal
  api_type : String
  mobile : String
  action : String
  attributes : String
  filename : String
  query_text : String
  domain_id : String
  query_string : String
  format : String
  user_agent : String
  referer : String
  geo_coordinates : String
  hostname : String

/-- The fixed 17-column user-actions schema (etl line 83). -/
def user_actions_columns : List String :=
  ["timestamp", "user_ip_addr", "user_id", "dataset_id", "api_type",
   "mobile", "action", "attributes", "filename", "query_text",
   "domain_id", "query_string", "format", "user_agent", "referer",
   "geo_coordinates", "hostname"]

/-- Stage of etl line 86: apply to_timestamp to the timestamp column,
keeping the other columns. -/
def convertUserRow (r : RawUserRow) : UserRow :=
  { timestamp := to_timestamp r.timestamp
    user_ip_addr := r.user_ip_addr, user_id := r.user_id
    dataset_id := r.dataset_id, api_type := r.api_type
    mobile := r.mobile, action := r.action, attributes := r.attributes
    filename := r.filename, query_text := r.query_text
    domain_id := r.domain_id, query_string := r.query_string
    format := r.format, user_agent := r.user_agent
    referer := r.referer, geo_coordinates := r.geo_coordinates
    hostname := r.hostname }

/-- The cleansing stage of update_user_data (etl lines 83-91):
project to the 17 columns, convert timestamps, keep only rows whose
timestamp date is strictly after the stored watermark date and
strictly before the run date, apply extract_dataset to dataset_id,
and coerce the remaining columns to text (the identity on the string
columns of the model). -/
def update_user_data_clean (latest_user_date today : Int)
    (rows : List RawUserRow) : List UserRow :=
  let converted := rows.map convertUserRow
  let filtered := converted.filter fun r =>
    decide (latest_user_date < dateOf r.timestamp) &&
    decide (dateOf r.timestamp < today)
  filtered.map fun r => { r with dataset_id := extract_dataset r.dataset_id }

/-- The query parameters built by download_user_data (utilities lines
73-89): lang, the qv1 range filter on the timestamp field written
with the bracketed INCLUSIVE range syntax of the upstream query
language, from startDate to endDate, and the timezone. -/
structure UserDataRequest where
  lang : String
  startDate : Int
  endDate : Int
  timezone : String
deriving DecidableEq

/-- download_user_data request construction (utilities lines 84-88). -/
def download_user_data_request (start_date end_date : Int) : UserDataRequest :=
  { lang := "de", startDate := start_date, endDate := end_date
    timezone := "Europe/Berlin" }

/-- Start of the query window (etl line 78): one day before the
stored user watermark date. -/
def query_update_start (latest_user_date : Int) : Int :=
  latest_user_date - 1

/-- Durable and observable state of the user branch: the
ogd_analytics.user_actions table and the log of HTTP requests issued
against the user-data endpoint. -/
structure UserState where
  table : List UserRow
  requests : List UserDataRequest

/-- update_user_data (etl lines 70-99). The HTTP fetch is an oracle
from the request to the raw records; now is the wall clock read by
datetime.now() at recheck time (seconds). The function widens the
query window by one day on the start side, fetches, cleanses,
re-reads the watermark from the table, and loads only when the
re-read watermark date is still before the recheck date minus one
day; otherwise it skips the insert and succeeds. -/
def update_user_data (api : UserDataRequest → List RawUserRow)
    (latest_user_date today now : Int) (s : UserState) :
    Except PyError UserState :=
  let req := download_user_data_request (query_update_start latest_user_date) today
  let df := update_user_data_clean latest_user_date today (api req)
  match get_latest_timestamp (s.table.map fun r => r.timestamp) with
  | Except.error e => Except.error e
  | Except.ok w =>
    if dateOf w < dateOf (now - 86400) then
      Except.ok { table := s.table ++ df, requests := s.requests ++ [req] }
    else
      Except.ok { table := s.table, requests := s.requests ++ [req] }

/-- A raw dataset-metrics record from the API: the 11 upstream
columns of the projection list at etl line 112, plus any extra API
fields, which the projection discards. -/
structure RawDsRow where
  dataset_id : PyVal
  title : PyVal
  modified : PyVal
  publisher : PyVal
  license : PyVal
  keyword : PyVal
  theme : PyVal
  api_call_count : PyVal
  download_count : PyVal
  records_count : PyVal
  visibility : PyVal
  extras : List (String × PyVal)

/-- A row of the ogd_analytics.datasets table: the fixed 12-column
schema of etl line 112. -/
structure DsRow where
  timestamp : Int
  dataset_id : PyVal
  title : PyVal
  modified : PyVal
  publisher : PyVal
  license : PyVal
  keyword : PyVal
  theme : PyVal
  api_call_count : PyVal
  download_count : PyVal
  records_count : PyVal
  visibility : PyVal

/-- The fixed 12-column datasets schema (etl line 112). -/
def datasets_columns : List String :=
  ["timestamp", "dataset_id", "title", "modified", "publisher",
   "license", "keyword", "theme", "api_call_count", "download_count",
   "records_count", "visibility"]

/-- Projection of one raw record to the 12-column schema, the
timestamp column stamped with the fetch time (etl lines 111-114). -/
def projectDs (fetchNow : Int) (r : RawDsRow) : DsRow :=
  { timestamp := fetchNow, dataset_id := r.dataset_id, title := r.title
    modified := r.modified, publisher := r.publisher
    license := r.license, keyword := r.keyword, theme := r.theme
    api_call_count := r.api_call_count
    download_count := r.download_count
    records_count := r.records_count, visibility := r.visibility }

/-- The cleansing stage of update_datasets_data (etl lines 111-114):
stamp every row with the fetch time and project; no filtering. -/
def update_datasets_data_clean (fetchNow : Int) (raw : List RawDsRow) :
    List DsRow :=
  raw.map (projectDs fetchNow)

/-- Durable and observable state of the dataset branch: the
ogd_analytics.datasets table and the count of HTTP requests issued
against the datasets endpoint (the request carries no varying
parameters, utilities line 98). -/
structure DsState where
  table : List DsRow
  requests : Nat

/-- update_datasets_data (etl lines 107-120). raw is the fetched
record list; fetchNow is the datetime.now() of etl line 111 and
recheckNow the datetime.now() of etl line 117 (seconds). Fetch,
stamp and project, re-read the watermark from the table, and load
only when the re-read watermark date is still before the recheck
date; otherwise skip the insert and succeed. -/
def update_datasets_data (raw : List RawDsRow)
    (fetchNow recheckNow : Int) (s : DsState) : Except PyError DsState :=
  let df := update_datasets_data_clean fetchNow raw
  match get_latest_timestamp (s.table.map fun r => r.timestamp) with
  | Except.error e => Except.error e
  | Except.ok w =>
    if dateOf w < dateOf recheckNow then
      Except.ok { table := s.table ++ df, requests := s.requests + 1 }
    else
      Except.ok { table := s.table, requests := s.requests + 1 }

/-- The user branch of the DAG (etl lines 148-152 and 177-178): the
ShortCircuitOperator runs the gate on the shared dates; when it
returns false the downstream update task is skipped entirely and the
state is untouched. -/
def run_user_branch (api : UserDataRequest → List RawUserRow)
    (latest_user_date today now : Int) (s : UserState) :
    Except PyError UserState :=
  if is_user_data_up_to_date latest_user_date today then
    update_user_data api latest_user_date today now s
  else
    Except.ok s

/-- The dataset branch of the DAG (etl lines 154-158 and 177, 179):
gate false means the downstream update task is skipped entirely. -/
def run_datasets_branch (raw : List RawDsRow)
    (latest_datasets_date today fetchNow recheckNow : Int)
    (s : DsState) : Except PyError DsState :=
  if is_datasets_data_up_to_date latest_datasets_date today then
    update_datasets_data raw fetchNow recheckNow s
  else
    Except.ok s

/-- get_update_dates (etl lines 29-34): read both watermarks, render
them as dates (strftime with the date format keeps the date
component), and read the shared run date from the wall clock once. -/
def get_update_dates (userTable : List UserRow) (dsTable : List DsRow)
    (now : Int) : Except PyError (Int × Int × Int) :=
  match get_latest_timestamp (userTable.map fun r => r.timestamp) with
  | Except.error e => Except.error e
  | Except.ok u =>
    match get_latest_timestamp (dsTable.map fun r => r.timestamp) with
    | Except.error e => Except.error e
    | Except.ok d => Except.ok (dateOf u, dateOf d, dateOf now)

/-! Helper lemmas shared by the claim theorems. -/

theorem get_latest_timestamp_of_ne_nil (l : List Int) (h : l ≠ []) :
    ∃ w, get_latest_timestamp l = Except.ok w := by
  cases l with
  | nil => exact absurd rfl h
  | cons a as => exact ⟨(as.foldl max a), rfl⟩

theorem update_user_data_eq (api : UserDataRequest → List RawUserRow)
    (W T now : Int) (s : UserState) (w : Int)
    (hw : get_latest_timestamp (s.table.map fun r => r.timestamp) = Except.ok w) :
    update_user_data api W T now s =
      (if dateOf w < dateOf (now - 86400) then
        Except.ok { table := s.table ++ update_user_data_clean W T
                      (api (download_user_data_request (query_update_start W) T)),
                    requests := s.requests ++
                      [download_user_data_request (query_update_start W) T] }
      else
        Except.ok { table := s.table,
                    requests := s.requests ++
                      [download_user_data_request (query_update_start W) T] }) := by
  unfold update_user_data
  rw [hw]

theorem update_datasets_data_eq (raw : List RawDsRow)
    (fetchNow recheckNow : Int) (s : DsState) (w : Int)
    (hw : get_latest_timestamp (s.table.map fun r => r.timestamp) = Except.ok w) :
    update_datasets_data raw fetchNow recheckNow s =
      (if dateOf w < dateOf recheckNow then
        Except.ok { table := s.table ++ update_datasets_data_clean fetchNow raw,
                    requests := s.requests + 1 }
      else
        Except.ok { table := s.table, requests := s.requests + 1 }) := by
  unfold update_datasets_data
  rw [hw]

theorem map_timestamp_projectDs (fetchNow : Int) (raw : List RawDsRow) :
    (raw.map (projectDs fetchNow)).map (fun r => r.timestamp) =
      List.replicate raw.length fetchNow := by
  induction raw with
  | nil => rfl
  | cons a l ih => simp only [List.map_cons, List.length_cons,
      List.replicate_succ, ih, projectDs]

/-! The claim theorems. -/

/-- Claim C1: for every stored watermark date W and run date T, the
user-actions freshness gate returns true iff W < T minus one day, and
the dataset-metadata freshness gate returns true iff W < T. -/
theorem freshness_gates_iff (W T : Int) :
    (is_user_data_up_to_date W T = true ↔ W < T - 1) ∧
    (is_datasets_data_up_to_date W T = true ↔ W < T) := by
  constructor
  · by_cases h : W < T - 1 <;> simp [is_user_data_up_to_date, h]
  · by_cases h : W < T <;> simp [is_datasets_data_up_to_date, h]

/-- Claim C2: for every stored watermark date W, run date T, and any
mix of raw records whose timestamps parse, every row emitted by the
user-actions normalizer has a timestamp date strictly greater than W
and strictly less than T. -/
theorem normalizer_open_interval (W T : Int) (rows : List RawUserRow)
    (r : UserRow) (hr : r ∈ update_user_data_clean W T rows) :
    W < dateOf r.timestamp ∧ dateOf r.timestamp < T := by
  unfold update_user_data_clean at hr
  rcases List.mem_map.mp hr with ⟨r2, hr2, rfl⟩
  have h := (List.mem_filter.mp hr2).2
  simp only [Bool.and_eq_true, decide_eq_true_eq] at h
  exact h

def sampleRawUser : RawUserRow :=
  { timestamp := { wallSec := 1704067200, usec := 0, offMin := 0 }
    user_ip_addr := "ip", user_id := "u"
    dataset_id := .vlist [.vstr "ds"], api_type := "odsapi"
    mobile := "False", action := "download", attributes := "at"
    filename := "f", query_text := "q", domain_id := "d"
    query_string := "qs", format := "json", user_agent := "ua"
    referer := "r", geo_coordinates := "g", hostname := "h" }

def sampleCleanUser : UserRow :=
  { timestamp := 1704070800
    user_ip_addr := "ip", user_id := "u"
    dataset_id := .vstr "ds", api_type := "odsapi"
    mobile := "False", action := "download", attributes := "at"
    filename := "f", query_text := "q", domain_id := "d"
    query_string := "qs", format := "json", user_agent := "ua"
    referer := "r", geo_coordinates := "g", hostname := "h" }

/-- Witness for claim C2, at the watermark date 2023-12-31, run date
2024-01-02 and an input record timestamped 2024-01-01T00:00:00Z. -/
theorem normalizer_open_interval_witness :
    (19722 : Int) < dateOf sampleCleanUser.timestamp ∧
    dateOf sampleCleanUser.timestamp < 19724 :=
  normalizer_open_interval 19722 19724 [sampleRawUser] sampleCleanUser
    (by rw [show update_user_data_clean 19722 19724 [sampleRawUser] =
          [sampleCleanUser] from rfl]
        exact List.mem_singleton.mpr rfl)

/-- Claim C3, counterexample: the instant 2024-01-01T12:00:00Z
rendered without fractional seconds at offset +00:00 and at offset
+01:00 are two renderings of the same instant, yet to_timestamp
normalizes them to different values, and only the +00:00 rendering
yields the naive Europe/Berlin local time of the instant: the parsed
offset is discarded and the wall-clock time reinterpreted as UTC. -/
theorem to_timestamp_offset_counterexample :
    to_timestamp (renderNoFrac 1704110400 0) ≠
      to_timestamp (renderNoFrac 1704110400 60) ∧
    to_timestamp (renderNoFrac 1704110400 0) =
      berlinLocalOfInstant 1704110400 ∧
    to_timestamp (renderNoFrac 1704110400 60) ≠
      berlinLocalOfInstant 1704110400 := by
  refine ⟨?_, ?_, ?_⟩ <;> decide

/-- Claim C3, amended: renderings of an instant in the two accepted
formats carrying the SAME UTC offset normalize to the identical
value (the fractional seconds are dropped); the normalized value is
the naive Europe/Berlin local time of the wall-clock fields
reinterpreted as UTC, so it equals the Berlin local time of the
instant exactly when the carried offset is +00:00. -/
theorem to_timestamp_same_offset_spec (t : Int) (u : Nat) (o : Int) :
    to_timestamp (renderWithFrac t u o) = to_timestamp (renderNoFrac t o) ∧
    to_timestamp (renderWithFrac t u o) = berlinLocalOfInstant (t + o * 60) ∧
    to_timestamp (renderWithFrac t u 0) = berlinLocalOfInstant t := by
  refine ⟨rfl, rfl, ?_⟩
  simp [to_timestamp, renderWithFrac, berlinLocalOfInstant]

/-- Claim C4: on a table with rows the timestamp query returns the
maximum of the column, but on an empty table it raises TypeError
(fetchone returns None and None[0] is subscripted), rather than
returning a NoPriorData outcome. -/
theorem get_latest_timestamp_empty_raises :
    get_latest_timestamp [] = Except.error PyError.typeError ∧
    get_latest_timestamp [1704067200, 1704070800, 1704070000] =
      Except.ok 1704070800 := by
  constructor <;> rfl

/-- Claim C5, counterexample: the string input BL is not a list, yet
extract_dataset returns its first character B, not null: Python
subscripting succeeds on strings, so the except branch is not
reached. -/
theorem extract_dataset_nonlist_counterexample :
    extract_dataset (PyVal.vstr "BL") = PyVal.vstr "B" ∧
    PyVal.vstr "B" ≠ PyVal.vnone := by
  refine ⟨rfl, fun h => PyVal.noConfusion h⟩

/-- Claim C5, amended: extract_dataset never raises; it returns the
sole element of a one-element list (and in general the first element
of a non-empty list), and null for an empty list or a
non-subscriptable input such as null or a number; but a subscriptable
non-list input, such as a non-empty string, yields its first item
rather than null. -/
theorem extract_dataset_amended_spec :
    (∀ v : PyVal, extract_dataset (.vlist [v]) = v) ∧
    (∀ (v : PyVal) (xs : List PyVal), extract_dataset (.vlist (v :: xs)) = v) ∧
    extract_dataset (.vlist []) = .vnone ∧
    extract_dataset .vnone = .vnone ∧
    (∀ n : Int, extract_dataset (.vint n) = .vnone) ∧
    extract_dataset (.vstr "") = .vnone ∧
    extract_dataset (.vstr "BL") = .vstr "B" :=
  ⟨fun _ => rfl, fun _ _ => rfl, rfl, rfl, fun _ => rfl, rfl, rfl⟩

/-! Concrete sample values used by the remaining witnesses. -/

def baseUserRow : UserRow :=
  { timestamp := 0
    user_ip_addr := "ip", user_id := "u"
    dataset_id := .vstr "ds", api_type := "odsapi"
    mobile := "False", action := "download", attributes := "at"
    filename := "f", query_text := "q", domain_id := "d"
    query_string := "qs", format := "json", user_agent := "ua"
    referer := "r", geo_coordinates := "g", hostname := "h" }

def uState0 : UserState := { table := [baseUserRow], requests := [] }

def dsRow0 : DsRow :=
  { timestamp := 0, dataset_id := .vstr "ds", title := .vstr "t"
    modified := .vstr "2024-01-01", publisher := .vstr "p"
    license := .vstr "l", keyword := .vstr "k", theme := .vstr "th"
    api_call_count := .vint 1, download_count := .vint 2
    records_count := .vint 3, visibility := .vstr "domain" }

def dState0 : DsState := { table := [dsRow0], requests := 0 }

def api0 : UserDataRequest → List RawUserRow := fun _ => []

/-- Claim C6: for every stored user watermark date W and run date T,
the user-actions fetch requests the inclusive range from W minus one
day to T: the window is widened by exactly one day on the start side,
trimming being deferred to the normalizer. -/
theorem user_fetch_window_widened (api : UserDataRequest → List RawUserRow)
    (W T now : Int) (s : UserState) (h : s.table ≠ []) :
    ∃ s2, update_user_data api W T now s = Except.ok s2 ∧
      s2.requests = s.requests ++
        [download_user_data_request (query_update_start W) T] ∧
      (download_user_data_request (query_update_start W) T).startDate = W - 1 ∧
      (download_user_data_request (query_update_start W) T).endDate = T := by
  obtain ⟨w, hw⟩ := get_latest_timestamp_of_ne_nil
    (s.table.map fun r => r.timestamp) (by intro hm; apply h; simpa using hm)
  rw [update_user_data_eq api W T now s w hw]
  by_cases hc : dateOf w < dateOf (now - 86400)
  · rw [if_pos hc]; exact ⟨_, rfl, rfl, rfl, rfl⟩
  · rw [if_neg hc]; exact ⟨_, rfl, rfl, rfl, rfl⟩

/-- Witness for claim C6 at watermark date 5, run date 9. -/
theorem user_fetch_window_widened_witness :
    ∃ s2, update_user_data api0 5 9 0 uState0 = Except.ok s2 ∧
      s2.requests = uState0.requests ++
        [download_user_data_request (query_update_start 5) 9] ∧
      (download_user_data_request (query_update_start 5) 9).startDate = 5 - 1 ∧
      (download_user_data_request (query_update_start 5) 9).endDate = 9 :=
  user_fetch_window_widened api0 5 9 0 uState0 (by simp [uState0])

/-- Claim C7: for each branch, with the watermark re-read from the
store immediately before loading, when the re-read watermark has
already reached the staleness threshold (user: not older than one day
before now, dataset: not older than the current date) the load is
skipped with no insert and the step succeeds; otherwise the batch is
appended. -/
theorem preload_recheck_spec (api : UserDataRequest → List RawUserRow)
    (W T now : Int) (s : UserState) (w : Int)
    (hw : get_latest_timestamp (s.table.map fun r => r.timestamp) = Except.ok w)
    (raw : List RawDsRow) (fetchNow recheckNow : Int) (d : DsState) (wd : Int)
    (hd : get_latest_timestamp (d.table.map fun r => r.timestamp) = Except.ok wd) :
    (¬ dateOf w < dateOf (now - 86400) →
      update_user_data api W T now s = Except.ok
        { table := s.table
          requests := s.requests ++
            [download_user_data_request (query_update_start W) T] }) ∧
    (dateOf w < dateOf (now - 86400) →
      update_user_data api W T now s = Except.ok
        { table := s.table ++ update_user_data_clean W T
            (api (download_user_data_request (query_update_start W) T))
          requests := s.requests ++
            [download_user_data_request (query_update_start W) T] }) ∧
    (¬ dateOf wd < dateOf recheckNow →
      update_datasets_data raw fetchNow recheckNow d = Except.ok
        { table := d.table, requests := d.requests + 1 }) ∧
    (dateOf wd < dateOf recheckNow →
      update_datasets_data raw fetchNow recheckNow d = Except.ok
        { table := d.table ++ update_datasets_data_clean fetchNow raw
          requests := d.requests + 1 }) := by
  refine ⟨fun hc => ?_, fun hc => ?_, fun hc => ?_, fun hc => ?_⟩
  · rw [update_user_data_eq api W T now s w hw, if_neg hc]
  · rw [update_user_data_eq api W T now s w hw, if_pos hc]
  · rw [update_datasets_data_eq raw fetchNow recheckNow d wd hd, if_neg hc]
  · rw [update_datasets_data_eq raw fetchNow recheckNow d wd hd, if_pos hc]

/-- Witness for claim C7: the user branch skips when the re-read
watermark is on the day before the recheck clock, and the dataset
branch loads when the re-read watermark is before the recheck date. -/
theorem preload_recheck_spec_witness :
    update_user_data api0 5 9 86400 uState0 = Except.ok
      { table := uState0.table
        requests := uState0.requests ++
          [download_user_data_request (query_update_start 5) 9] } ∧
    update_datasets_data [] 0 86400 dState0 = Except.ok
      { table := dState0.table ++ update_datasets_data_clean 0 []
        requests := dState0.requests + 1 } :=
  ⟨(preload_recheck_spec api0 5 9 86400 uState0 0 rfl
      [] 0 86400 dState0 0 rfl).1 (by decide),
   (preload_recheck_spec api0 5 9 86400 uState0 0 rfl
      [] 0 86400 dState0 0 rfl).2.2.2 (by decide)⟩

/-- Claim C8: when a freshness gate returns false, the branch behind
its ShortCircuitOperator is skipped entirely: no HTTP request is
issued, no row is inserted, the stored table is unchanged and no
error is raised. -/
theorem gate_false_skips_branch (api : UserDataRequest → List RawUserRow)
    (W T now : Int) (s : UserState) (raw : List RawDsRow)
    (W2 T2 fetchNow recheckNow : Int) (d : DsState)
    (hu : is_user_data_up_to_date W T = false)
    (hd : is_datasets_data_up_to_date W2 T2 = false) :
    run_user_branch api W T now s = Except.ok s ∧
    run_datasets_branch raw W2 T2 fetchNow recheckNow d = Except.ok d := by
  constructor
  · simp [run_user_branch, hu]
  · simp [run_datasets_branch, hd]

/-- Witness for claim C8: both watermarks already on the run date. -/
theorem gate_false_skips_branch_witness :
    run_user_branch api0 5 5 0 uState0 = Except.ok uState0 ∧
    run_datasets_branch [] 5 5 0 0 dState0 = Except.ok dState0 :=
  gate_false_skips_branch api0 5 5 0 uState0 [] 5 5 0 0 dState0
    (by decide) (by decide)

/-- Claim C9: the dataset-metrics normalizer projects to exactly the
fixed 12-column schema, stamps every row with the fetch time rather
than any upstream field, and applies no filtering: the output is a
full snapshot, one projected row per fetched record, in order. -/
theorem datasets_snapshot_spec (fetchNow : Int) (raw : List RawDsRow) :
    (update_datasets_data_clean fetchNow raw).length = raw.length ∧
    (update_datasets_data_clean fetchNow raw).map (fun r => r.timestamp) =
      List.replicate raw.length fetchNow ∧
    ∀ i : Nat, (update_datasets_data_clean fetchNow raw)[i]? =
      (raw[i]?).map (projectDs fetchNow) := by
  refine ⟨?_, map_timestamp_projectDs fetchNow raw, fun i => ?_⟩
  · simp [update_datasets_data_clean]
  · simp [update_datasets_data_clean]

def rawUser10 : RawUserRow :=
  { timestamp := { wallSec := 86400, usec := 0, offMin := 0 }
    user_ip_addr := "ip", user_id := "u"
    dataset_id := .vlist [.vstr "ds"], api_type := "odsapi"
    mobile := "False", action := "download", attributes := "at"
    filename := "f", query_text := "q", domain_id := "d"
    query_string := "qs", format := "json", user_agent := "ua"
    referer := "r", geo_coordinates := "g", hostname := "h" }

def api10 : UserDataRequest → List RawUserRow := fun _ => [rawUser10]

def cleanUser10 : UserRow :=
  { timestamp := 90000
    user_ip_addr := "ip", user_id := "u"
    dataset_id := .vstr "ds", api_type := "odsapi"
    mobile := "False", action := "download", attributes := "at"
    filename := "f", query_text := "q", domain_id := "d"
    query_string := "qs", format := "json", user_agent := "ua"
    referer := "r", geo_coordinates := "g", hostname := "h" }

/-- Claim C10: the pre-load recheck of the user branch compares the
re-read watermark against the date of the wall clock read at load
time, not against the shared run date: with watermark date 0, shared
run date 2, and a load-time clock reading on date 1 (the run crossing
a date boundary between the gate evaluation and the load), the gate
fires, the re-read watermark is still 0, yet the load is skipped with
no insert; the same call with a load-time reading on the shared run
date does insert the pending batch. -/
theorem user_recheck_wallclock :
    is_user_data_up_to_date 0 2 = true ∧
    get_latest_timestamp (uState0.table.map fun r => r.timestamp) =
      Except.ok 0 ∧
    dateOf 90000 ≠ 2 ∧
    update_user_data api10 0 2 90000 uState0 = Except.ok
      { table := uState0.table
        requests := [download_user_data_request (query_update_start 0) 2] } ∧
    update_user_data api10 0 2 (2 * 86400) uState0 = Except.ok
      { table := uState0.table ++ [cleanUser10]
        requests := [download_user_data_request (query_update_start 0) 2] } := by
  refine ⟨by decide, rfl, by decide, ?_, ?_⟩
  · rw [update_user_data_eq api10 0 2 90000 uState0 0 rfl, if_neg (by decide)]
    rfl
  · rw [update_user_data_eq api10 0 2 (2 * 86400) uState0 0 rfl,
      if_pos (by decide)]
    rfl

end Ogd
